import Mathlib

/-!
Verification of the scaffold-cli stack registry and installation dispatcher.

This file gives a shallow embedding, in Lean, of the core of the
`scaffold_cli` Python package:

* `src/scaffold_cli/core/project_types.py` — the `ProjectConfig` data class,
  the `PROJECTS` registry, and the lookup helpers;
* `src/scaffold_cli/core/installer.py` — `Installer.install`,
  `Installer._run_post_install`, `Installer._handle_custom_install`, and the
  custom template writers (`_create_fastapi_project`, ...), modelled over an
  explicit filesystem state;
* `src/scaffold_cli/utils/command_runner.py` — `CommandRunner.run`,
  `_run_interactive` and `_run_with_spinner`, modelled over an abstract
  description of the child process;
* `src/scaffold_cli/validators/dependencies.py` — the `TOOLS` table and
  `DependencyValidator.validate`.

External effects (spawning a shell command, probing an installed tool) are
modelled by oracle functions passed as explicit arguments; filesystem writes
performed by the custom template writers are modelled by an explicit `FS`
state.  Python strings are modelled by `String` / `List Char`.
-/

namespace ScaffoldCli

/-! ## Character-list utilities

Python's `str.startswith`, `str.split(":")` and `str.format(name=...)` are
modelled on `List Char`.  `leadsList a b` decides whether `a` is an initial
segment of `b` (also reused on path component lists). -/

def leadsList {α : Type} [DecidableEq α] : List α → List α → Bool
  | [], _ => true
  | _ :: _, [] => false
  | a :: as, b :: bs => if a = b then leadsList as bs else false

/-- Python `s.startswith(p)`. -/
def strStarts (s p : String) : Bool := leadsList p.data s.data

/-- Python `s.split(c)` for a single-character separator. -/
def splitOnChar (c : Char) : List Char → List (List Char)
  | [] => [[]]
  | a :: as =>
    if a = c then [] :: splitOnChar c as
    else
      match splitOnChar c as with
      | [] => [[a]]
      | g :: gs => (a :: g) :: gs

/-- The character `{` (written escaped to keep it out of the source text). -/
def braceChar : Char := '\x7b'

/-- Number of `braceChar` occurrences in a character list. -/
def countBrace : List Char → Nat
  | [] => 0
  | c :: cs => (if c = braceChar then 1 else 0) + countBrace cs

/-- Number of (left-to-right, non-overlapping) occurrences of `pat`,
recursing on an explicit fuel so the definition evaluates by kernel
reduction; `countOcc` instantiates the fuel with the list length, which
always suffices. -/
def countOccAux (pat : List Char) : Nat → List Char → Nat
  | _, [] => 0
  | 0, _ :: _ => 0
  | fuel + 1, c :: cs =>
    if leadsList pat (c :: cs) then countOccAux pat fuel (cs.drop (pat.length - 1)) + 1
    else countOccAux pat fuel cs

def countOcc (pat s : List Char) : Nat := countOccAux pat s.length s

/-- Replace every (left-to-right, non-overlapping) occurrence of `pat` by
`rep`; this is the effect of Python's `cmd.format(name=...)` on a template
whose only replacement fields are `name` fields. -/
def replaceOccAux (pat rep : List Char) : Nat → List Char → List Char
  | _, [] => []
  | 0, s => s
  | fuel + 1, c :: cs =>
    if leadsList pat (c :: cs) then rep ++ replaceOccAux pat rep fuel (cs.drop (pat.length - 1))
    else c :: replaceOccAux pat rep fuel cs

def replaceOcc (pat rep s : List Char) : List Char := replaceOccAux pat rep s.length s

/-- The `name` replacement field of the registry command templates,
i.e. the six characters spelling a `name` reference in braces. -/
def nameTok : List Char := [braceChar, 'n', 'a', 'm', 'e', '\x7d']

/-- Python `config.command.format(name=project_name)` (installer.py line 57),
for command templates whose only braces belong to `name` fields. -/
def formatCmd (cmd nm : String) : String := String.mk (replaceOcc nameTok nm.data cmd.data)

/-! Basic lemmas about the char utilities. -/

theorem leadsList_eq_append {α : Type} [DecidableEq α] :
    ∀ (p s : List α), leadsList p s = true → s = p ++ s.drop p.length := by
  intro p
  induction p with
  | nil => intro s _; simp
  | cons a as ih =>
    intro s h
    cases s with
    | nil => simp [leadsList] at h
    | cons b bs =>
      simp only [leadsList] at h
      split at h
      · next hab =>
        subst hab
        have := ih bs h
        simpa using this
      · exact absurd h (by simp)

theorem countBrace_append : ∀ (a b : List Char),
    countBrace (a ++ b) = countBrace a + countBrace b := by
  intro a b
  induction a with
  | nil => simp [countBrace]
  | cons c cs ih => simp [countBrace, ih]; try omega

theorem countBrace_drop_le : ∀ (n : Nat) (l : List Char),
    countBrace (l.drop n) ≤ countBrace l := by
  intro n
  induction n with
  | zero => intro l; simp
  | succ m ih =>
    intro l
    cases l with
    | nil => simp
    | cons c cs =>
      calc countBrace ((c :: cs).drop (m + 1)) = countBrace (cs.drop m) := by simp
        _ ≤ countBrace cs := ih cs
        _ ≤ countBrace (c :: cs) := by simp [countBrace]; try omega

/-- If a list has no brace character, it contains no occurrence of a pattern
that starts with a brace (at any fuel). -/
theorem countOccAux_no_brace (pt : List Char) :
    ∀ (n : Nat) (s : List Char), countBrace s = 0 →
      countOccAux (braceChar :: pt) n s = 0 := by
  intro n
  induction n with
  | zero => intro s _; cases s <;> rfl
  | succ m ih =>
    intro s h
    cases s with
    | nil => rfl
    | cons c cs =>
      have hc : ¬ c = braceChar := by
        intro hc; simp [countBrace, hc] at h
      have hcs : countBrace cs = 0 := by
        simpa [countBrace, hc] using h
      have hl : leadsList (braceChar :: pt) (c :: cs) = false := by
        simp only [leadsList]
        split
        · next he => exact absurd he.symm hc
        · rfl
      simp only [countOccAux]
      rw [hl]
      simp only [Bool.false_eq_true, if_false]
      exact ih cs hcs

theorem countOcc_eq_zero_of_no_brace (pt : List Char) (s : List Char)
    (h : countBrace s = 0) : countOcc (braceChar :: pt) s = 0 :=
  countOccAux_no_brace pt s.length s h

/-- Each occurrence of a brace-initial pattern consumes at least one brace. -/
theorem countOccAux_le_countBrace (pt : List Char) :
    ∀ (n : Nat) (s : List Char), s.length ≤ n →
      countOccAux (braceChar :: pt) n s ≤ countBrace s := by
  intro n
  induction n with
  | zero =>
    intro s hs
    have : s = [] := by cases s <;> simp_all
    subst this; simp [countOccAux]
  | succ m ih =>
    intro s hs
    cases s with
    | nil => simp [countOccAux]
    | cons c cs =>
      simp only [countOccAux]
      by_cases hl : leadsList (braceChar :: pt) (c :: cs) = true
      · rw [if_pos hl]
        have hsplit := leadsList_eq_append _ _ hl
        have hdropLen : ((c :: cs).drop (braceChar :: pt).length) = cs.drop pt.length := by
          simp
        have hdrop' : (braceChar :: pt).length - 1 = pt.length := by simp
        rw [hdrop']
        have hlen : (cs.drop pt.length).length ≤ m := by
          simp only [List.length_drop]
          have : cs.length ≤ m := by simpa using hs
          omega
        have hrec := ih (cs.drop pt.length) hlen
        have hcount : countBrace (c :: cs) =
            countBrace (braceChar :: pt) + countBrace (cs.drop pt.length) := by
          conv_lhs => rw [hsplit]
          rw [countBrace_append, hdropLen]
        have hone : 1 ≤ countBrace (braceChar :: pt) := by
          simp [countBrace]
        omega
      · rw [if_neg hl]
        have hlen : cs.length ≤ m := by simpa using hs
        have hrec := ih cs hlen
        have : countBrace cs ≤ countBrace (c :: cs) := by
          simp [countBrace]; try omega
        omega

/-- If every brace of `s` belongs to an occurrence of the brace-initial
pattern (i.e. `countBrace s = countOcc pat s`) and the replacement has no
brace, the replaced list has no brace. -/
theorem countBrace_replaceOccAux (pt rep : List Char) (hrep : countBrace rep = 0) :
    ∀ (n : Nat) (s : List Char), s.length ≤ n →
      countBrace s = countOccAux (braceChar :: pt) n s →
      countBrace (replaceOccAux (braceChar :: pt) rep n s) = 0 := by
  intro n
  induction n with
  | zero =>
    intro s hs _
    have : s = [] := by cases s <;> simp_all
    subst this; simp [replaceOccAux, countBrace]
  | succ m ih =>
    intro s hs heq
    cases s with
    | nil => simp [replaceOccAux, countBrace]
    | cons c cs =>
      simp only [replaceOccAux]
      by_cases hl : leadsList (braceChar :: pt) (c :: cs) = true
      · rw [if_pos hl]
        have hsplit := leadsList_eq_append _ _ hl
        have hdropLen : ((c :: cs).drop (braceChar :: pt).length) = cs.drop pt.length := by
          simp
        have hdrop' : (braceChar :: pt).length - 1 = pt.length := by simp
        rw [hdrop']
        have hlen : (cs.drop pt.length).length ≤ m := by
          simp only [List.length_drop]
          have : cs.length ≤ m := by simpa using hs
          omega
        -- from heq, the tail still has all braces inside occurrences
        have hcount : countBrace (c :: cs) =
            countBrace (braceChar :: pt) + countBrace (cs.drop pt.length) := by
          conv_lhs => rw [hsplit]
          rw [countBrace_append, hdropLen]
        have hocc : countOccAux (braceChar :: pt) (m + 1) (c :: cs) =
            countOccAux (braceChar :: pt) m (cs.drop pt.length) + 1 := by
          simp only [countOccAux]
          rw [if_pos hl, hdrop']
        rw [hocc] at heq
        have hle := countOccAux_le_countBrace pt m (cs.drop pt.length) hlen
        have hone : 1 ≤ countBrace (braceChar :: pt) := by simp [countBrace]
        have heq' : countBrace (cs.drop pt.length) =
            countOccAux (braceChar :: pt) m (cs.drop pt.length) := by omega
        rw [countBrace_append, hrep, ih (cs.drop pt.length) hlen heq']
      · rw [if_neg hl]
        have hlen : cs.length ≤ m := by simpa using hs
        have hocc : countOccAux (braceChar :: pt) (m + 1) (c :: cs) =
            countOccAux (braceChar :: pt) m cs := by
          simp only [countOccAux]
          rw [if_neg hl]
        rw [hocc] at heq
        by_cases hc : c = braceChar
        · exfalso
          have hce : countBrace (c :: cs) = 1 + countBrace cs := by simp [countBrace, hc]
          have hle := countOccAux_le_countBrace pt m cs hlen
          omega
        · have hce : countBrace (c :: cs) = countBrace cs := by simp [countBrace, hc]
          have heq' : countBrace cs = countOccAux (braceChar :: pt) m cs := by omega
          simp only [countBrace, hc, if_false]
          rw [ih cs hlen heq']

/-- Master substitution lemma: a template containing exactly one `nameTok`
occurrence and exactly one brace character, substituted with a brace-free
replacement, yields a brace-free (hence `nameTok`-free) result. -/
theorem countOcc_replace_eq_zero (s rep : List Char)
    (h1 : countOcc nameTok s = 1) (h2 : countBrace s = 1)
    (hrep : countBrace rep = 0) :
    countOcc nameTok (replaceOcc nameTok rep s) = 0 := by
  have hz : countBrace (replaceOcc nameTok rep s) = 0 := by
    apply countBrace_replaceOccAux ['n', 'a', 'm', 'e', '\x7d'] rep hrep s.length s le_rfl
    show countBrace s = countOcc nameTok s
    rw [h1, h2]
  exact countOcc_eq_zero_of_no_brace _ _ hz

/-! ## Filesystem model for the custom template writers

The custom template writers of `installer.py` only touch the filesystem
through three `pathlib` operations: `mkdir(parents=True, exist_ok=True)`,
plain `mkdir()`, and `write_text`.  Paths are modelled as component lists,
a filesystem as the set of existing directories plus a partial map from
paths to file contents.  Each operation either succeeds, or raises — in the
model, returns `none` — exactly when the corresponding `pathlib` call
raises (`FileExistsError`, `FileNotFoundError`, `IsADirectoryError`); the
writers wrap the sequence in `try/except`, returning `False` and keeping
the partially written state on the first failure. -/

abbrev FsPath := List String

/-- The non-empty initial segments of a path: the chain of directories
`mkdir(parents=True)` has to ensure. -/
def initsNE : FsPath → List FsPath
  | [] => []
  | a :: as => [a] :: (initsNE as).map (fun q => a :: q)

structure FS where
  dirs : List FsPath
  files : FsPath → Option String

/-- Append the paths of `qs` missing from `ds` (directory creation is
idempotent for already-existing directories). -/
def addMissing (qs ds : List FsPath) : List FsPath :=
  qs.foldl (fun acc q => if q ∈ acc then acc else acc ++ [q]) ds

inductive FSOp where
  /-- `path.mkdir(parents=True, exist_ok=True)` -/
  | mkdirP (p : FsPath)
  /-- plain `path.mkdir()` (raises if the directory already exists) -/
  | mkdirPlain (p : FsPath)
  /-- `path.write_text(content)` (creates or overwrites) -/
  | writeText (p : FsPath) (content : String)

def applyOp (fs : FS) : FSOp → Option FS
  | .mkdirP p =>
    if ∃ q ∈ initsNE p, (fs.files q).isSome = true then none
    else some ⟨addMissing (initsNE p) fs.dirs, fs.files⟩
  | .mkdirPlain p =>
    if p ∈ fs.dirs ∨ (fs.files p).isSome = true then none
    else if p.dropLast ∈ fs.dirs then some ⟨p :: fs.dirs, fs.files⟩
    else none
  | .writeText p c =>
    if p ∈ fs.dirs then none
    else if p.dropLast ∈ fs.dirs then
      some ⟨fs.dirs, fun q => if q = p then some c else fs.files q⟩
    else none

/-- Run a writer's operation sequence; on the first failing operation stop
with `false`, keeping the state written so far (the Python writers catch the
exception, print an error and return `False` without rollback). -/
def runOps (fs : FS) : List FSOp → Bool × FS
  | [] => (true, fs)
  | op :: ops =>
    match applyOp fs op with
    | some fs' => runOps fs' ops
    | none => (false, fs)

/-- The paths written by a sequence of operations. -/
def opWrites : List FSOp → List FsPath
  | [] => []
  | .writeText p _ :: ops => p :: opWrites ops
  | .mkdirP _ :: ops => opWrites ops
  | .mkdirPlain _ :: ops => opWrites ops

/-- The targets of `mkdir(parents=True, exist_ok=True)` operations. -/
def opPTargets : List FSOp → List FsPath
  | [] => []
  | .mkdirP p :: ops => p :: opPTargets ops
  | .writeText _ _ :: ops => opPTargets ops
  | .mkdirPlain _ :: ops => opPTargets ops

/-- The targets of plain (non-idempotent) `mkdir()` operations. -/
def opPlainTargets : List FSOp → List FsPath
  | [] => []
  | .mkdirPlain p :: ops => p :: opPlainTargets ops
  | .writeText _ _ :: ops => opPlainTargets ops
  | .mkdirP _ :: ops => opPlainTargets ops

/-! Supporting lemmas about the filesystem model. -/

theorem mem_addMissing_right : ∀ (qs ds : List FsPath) (q : FsPath),
    q ∈ ds → q ∈ addMissing qs ds := by
  intro qs
  induction qs with
  | nil => intro ds q h; simpa [addMissing] using h
  | cons p ps ih =>
    intro ds q h
    show q ∈ addMissing ps (if p ∈ ds then ds else ds ++ [p])
    apply ih
    split
    · exact h
    · exact List.mem_append_left _ h

theorem mem_addMissing_left : ∀ (qs ds : List FsPath) (q : FsPath),
    q ∈ qs → q ∈ addMissing qs ds := by
  intro qs
  induction qs with
  | nil => intro ds q h; simp at h
  | cons p ps ih =>
    intro ds q h
    rcases List.mem_cons.mp h with h | h
    · subst h
      show q ∈ addMissing ps (if q ∈ ds then ds else ds ++ [q])
      apply mem_addMissing_right
      split
      · assumption
      · exact List.mem_append_right _ (by simp)
    · exact ih _ q h

theorem mem_addMissing : ∀ (qs ds : List FsPath) (q : FsPath),
    q ∈ addMissing qs ds → q ∈ qs ∨ q ∈ ds := by
  intro qs
  induction qs with
  | nil => intro ds q h; right; simpa [addMissing] using h
  | cons p ps ih =>
    intro ds q h
    have h' : q ∈ addMissing ps (if p ∈ ds then ds else ds ++ [p]) := h
    rcases ih _ q h' with h | h
    · left; exact List.mem_cons_of_mem _ h
    · split at h
      · right; exact h
      · rcases List.mem_append.mp h with h | h
        · right; exact h
        · left; simp at h; simp [h]

theorem addMissing_eq_of_sub : ∀ (qs ds : List FsPath),
    (∀ q ∈ qs, q ∈ ds) → addMissing qs ds = ds := by
  intro qs
  induction qs with
  | nil => intro ds _; rfl
  | cons p ps ih =>
    intro ds h
    show addMissing ps (if p ∈ ds then ds else ds ++ [p]) = ds
    rw [if_pos (h p (by simp))]
    exact ih ds (fun q hq => h q (List.mem_cons_of_mem _ hq))

theorem initsNE_leads : ∀ (p q : FsPath), q ∈ initsNE p → leadsList q p = true := by
  intro p
  induction p with
  | nil => intro q h; simp [initsNE] at h
  | cons a as ih =>
    intro q h
    simp only [initsNE, List.mem_cons, List.mem_map] at h
    rcases h with h | ⟨r, hr, he⟩
    · subst h; simp [leadsList]
    · subst he; simpa [leadsList] using ih r hr

theorem leadsList_length {α : Type} [DecidableEq α] :
    ∀ (a b : List α), leadsList a b = true → a.length ≤ b.length := by
  intro a
  induction a with
  | nil => intro b _; simp
  | cons x xs ih =>
    intro b h
    cases b with
    | nil => simp [leadsList] at h
    | cons y ys =>
      simp only [leadsList] at h
      split at h
      · simpa using ih ys h
      · exact absurd h (by simp)

theorem applyOp_dirs_sub {fs fs' : FS} {op : FSOp} (h : applyOp fs op = some fs') :
    ∀ q, q ∈ fs.dirs → q ∈ fs'.dirs := by
  intro q hq
  cases op with
  | mkdirP p =>
    simp only [applyOp] at h
    split at h
    · exact absurd h (by simp)
    · cases h; exact mem_addMissing_right _ _ _ hq
  | mkdirPlain p =>
    simp only [applyOp] at h
    split at h
    · exact absurd h (by simp)
    · split at h
      · cases h; exact List.mem_cons_of_mem _ hq
      · exact absurd h (by simp)
  | writeText p c =>
    simp only [applyOp] at h
    split at h
    · exact absurd h (by simp)
    · split at h
      · cases h; exact hq
      · exact absurd h (by simp)

theorem runOps_dirs_sub : ∀ (ops : List FSOp) (fs : FS) (b : Bool) (fs' : FS),
    runOps fs ops = (b, fs') → ∀ q, q ∈ fs.dirs → q ∈ fs'.dirs := by
  intro ops
  induction ops with
  | nil =>
    intro fs b fs' h q hq
    simp only [runOps, Prod.mk.injEq] at h
    rw [← h.2]; exact hq
  | cons op ops ih =>
    intro fs b fs' h q hq
    rw [runOps] at h
    cases hop : applyOp fs op with
    | none =>
      rw [hop] at h
      simp only [Prod.mk.injEq] at h
      rw [← h.2]; exact hq
    | some fs1 =>
      rw [hop] at h
      exact ih fs1 b fs' h q (applyOp_dirs_sub hop q hq)

theorem runOps_files_off : ∀ (ops : List FSOp) (fs : FS) (b : Bool) (fs' : FS),
    runOps fs ops = (b, fs') → ∀ q, q ∉ opWrites ops → fs'.files q = fs.files q := by
  intro ops
  induction ops with
  | nil =>
    intro fs b fs' h q _
    simp only [runOps, Prod.mk.injEq] at h
    rw [← h.2]
  | cons op ops ih =>
    intro fs b fs' h q hq
    rw [runOps] at h
    cases hop : applyOp fs op with
    | none =>
      rw [hop] at h
      simp only [Prod.mk.injEq] at h
      rw [← h.2]
    | some fs1 =>
      rw [hop] at h
      have hfs1 : fs1.files q = fs.files q := by
        cases op with
        | mkdirP p =>
          simp only [applyOp] at hop
          split at hop
          · exact absurd hop (by simp)
          · cases hop; rfl
        | mkdirPlain p =>
          simp only [applyOp] at hop
          split at hop
          · exact absurd hop (by simp)
          · split at hop
            · cases hop; rfl
            · exact absurd hop (by simp)
        | writeText p c =>
          have hqp : q ≠ p := by
            intro he; exact hq (by simp [opWrites, he])
          simp only [applyOp] at hop
          split at hop
          · exact absurd hop (by simp)
          · split at hop
            · cases hop; simp [hqp]
            · exact absurd hop (by simp)
      have hq' : q ∉ opWrites ops := by
        intro hmem
        apply hq
        cases op <;> simp [opWrites, hmem]
      rw [ih fs1 b fs' h q hq', hfs1]

theorem runOps_dirs_new : ∀ (ops : List FSOp) (fs : FS) (b : Bool) (fs' : FS),
    runOps fs ops = (b, fs') → opPlainTargets ops = [] →
    ∀ q, q ∈ fs'.dirs →
      q ∈ fs.dirs ∨ ∃ t ∈ opPTargets ops, leadsList q t = true := by
  intro ops
  induction ops with
  | nil =>
    intro fs b fs' h _ q hq
    simp only [runOps, Prod.mk.injEq] at h
    left; rw [← h.2] at hq; exact hq
  | cons op ops ih =>
    intro fs b fs' h hpl q hq
    rw [runOps] at h
    cases hop : applyOp fs op with
    | none =>
      rw [hop] at h
      simp only [Prod.mk.injEq] at h
      left; rw [← h.2] at hq; exact hq
    | some fs1 =>
      rw [hop] at h
      have hpl1 : opPlainTargets ops = [] := by
        cases op with
        | mkdirPlain p => simp [opPlainTargets] at hpl
        | mkdirP p => simpa [opPlainTargets] using hpl
        | writeText p c => simpa [opPlainTargets] using hpl
      rcases ih fs1 b fs' h hpl1 q hq with h1 | ⟨t, ht, hl⟩
      · -- q entered at or before op
        cases op with
        | mkdirP p =>
          simp only [applyOp] at hop
          split at hop
          · exact absurd hop (by simp)
          · cases hop
            rcases mem_addMissing _ _ _ h1 with h2 | h2
            · right
              exact ⟨p, by simp [opPTargets], initsNE_leads p q h2⟩
            · left; exact h2
        | mkdirPlain p => simp [opPlainTargets] at hpl
        | writeText p c =>
          simp only [applyOp] at hop
          split at hop
          · exact absurd hop (by simp)
          · split at hop
            · cases hop; left; exact h1
            · exact absurd hop (by simp)
      · right
        refine ⟨t, ?_, hl⟩
        cases op <;> simp [opPTargets] at ht ⊢ <;> simp [ht]

/-- Master re-run theorem: a sequence of `mkdir(parents=True, exist_ok=True)`
and `write_text` operations whose written paths are pairwise distinct and
are never initial segments of a `mkdirP` target is idempotent — running it a
second time from the state a successful first run produced succeeds and
leaves the state unchanged byte for byte. -/
theorem runOps_rerun : ∀ (ops : List FSOp) (fs fs' : FS),
    opPlainTargets ops = [] →
    (opWrites ops).Nodup →
    (∀ w ∈ opWrites ops, ∀ t ∈ opPTargets ops, leadsList w t = false) →
    runOps fs ops = (true, fs') →
    runOps fs' ops = (true, fs') := by
  intro ops
  induction ops with
  | nil =>
    intro fs fs' _ _ _ h
    simp only [runOps, Prod.mk.injEq] at h
    rw [← h.2]; rfl
  | cons op ops ih =>
    intro fs fs' hpl hnd hcross hrun
    rw [runOps] at hrun
    cases hop : applyOp fs op with
    | none => rw [hop] at hrun; exact absurd hrun (by simp)
    | some fs1 =>
      rw [hop] at hrun
      -- conditions for the tail
      have hpl1 : opPlainTargets ops = [] := by
        cases op with
        | mkdirPlain p => simp [opPlainTargets] at hpl
        | mkdirP p => simpa [opPlainTargets] using hpl
        | writeText p c => simpa [opPlainTargets] using hpl
      have hnd1 : (opWrites ops).Nodup := by
        cases op with
        | writeText p c => exact (List.nodup_cons.mp (by simpa [opWrites] using hnd)).2
        | mkdirP p => simpa [opWrites] using hnd
        | mkdirPlain p => simpa [opWrites] using hnd
      have hcross1 : ∀ w ∈ opWrites ops, ∀ t ∈ opPTargets ops, leadsList w t = false := by
        intro w hw t ht
        apply hcross
        · cases op <;> simp [opWrites, hw]
        · cases op <;> simp [opPTargets, ht]
      have hfix : applyOp fs' op = some fs' := by
        cases op with
        | mkdirPlain p => simp [opPlainTargets] at hpl
        | mkdirP p =>
          -- first run succeeded: no initial segment of p is a file in fs
          simp only [applyOp] at hop
          split at hop
          · exact absurd hop (by simp)
          · next hnofile =>
            cases hop
            push_neg at hnofile
            have hnofile' : ∀ q ∈ initsNE p, (fs'.files q).isSome = false := by
              intro q hq
              by_cases hsame : fs'.files q = fs.files q
              · rw [hsame]
                simpa using hnofile q hq
              · exfalso
                -- the file must have been written by a later op, but written
                -- paths are never initial segments of a mkdirP target
                have hw : q ∈ opWrites ops := by
                  by_contra hnw
                  exact hsame (runOps_files_off ops _ _ _ hrun q hnw)
                have := hcross q (by simpa [opWrites] using hw) p (by simp [opPTargets])
                rw [initsNE_leads p q hq] at this
                exact absurd this (by simp)
            simp only [applyOp]
            rw [if_neg (by push_neg; intro q hq; simpa using hnofile' q hq)]
            have hsub : ∀ q ∈ initsNE p, q ∈ fs'.dirs := by
              intro q hq
              apply runOps_dirs_sub ops _ _ _ hrun
              exact mem_addMissing_left _ _ _ hq
            rw [addMissing_eq_of_sub _ _ hsub]
        | writeText p c =>
          simp only [applyOp] at hop
          split at hop
          · exact absurd hop (by simp)
          · next hnd' =>
            split at hop
            · next hpar =>
              cases hop
              have hpw : p ∈ opWrites (FSOp.writeText p c :: ops) := by simp [opWrites]
              -- p is still not a directory after the run
              have hnotdir : p ∉ fs'.dirs := by
                intro hmem
                rcases runOps_dirs_new ops _ _ _ hrun hpl1 p hmem with h1 | ⟨t, ht, hl⟩
                · exact hnd' h1
                · have := hcross p hpw t (by simpa [opPTargets] using ht)
                  rw [hl] at this
                  exact absurd this (by simp)
              -- parent is still a directory
              have hpar' : p.dropLast ∈ fs'.dirs :=
                runOps_dirs_sub ops _ _ _ hrun _ hpar
              -- content is already the written one
              have hval : fs'.files p = some c := by
                have hnp : p ∉ opWrites ops :=
                  (List.nodup_cons.mp (by simpa [opWrites] using hnd)).1
                rw [runOps_files_off ops _ _ _ hrun p hnp]
                simp
              simp only [applyOp]
              rw [if_neg hnotdir, if_pos hpar']
              have hfun : (fun q => if q = p then some c else fs'.files q) = fs'.files := by
                funext q
                split
                · next he => rw [he, hval]
                · rfl
              rw [hfun]
            · exact absurd hop (by simp)
      rw [runOps, hfix]
      exact ih fs1 fs' hpl1 hnd1 hcross1 hrun

/-! ## Custom template writers (installer.py `_create_*` methods)

Each writer is a sequence of filesystem operations; the file contents are
transcribed byte for byte from the Python string literals (braces written
with hex escapes).  `pathName` is `pathlib.Path.name`, the last component. -/

def pathName (p : FsPath) : String := p.getLastD ""

/-- The common shape `mkdir(parents=True, exist_ok=True)` followed by a
sequence of `write_text` calls directly inside the project directory. -/
def simpleOps (pp : FsPath) (fcs : List (String × String)) : List FSOp :=
  FSOp.mkdirP pp :: fcs.map (fun fc => FSOp.writeText (pp ++ [fc.1]) fc.2)

def fastapiMainPy : String := "\"\"\"\nFastAPI application\n\"\"\"\nfrom fastapi import FastAPI\n\napp = FastAPI(title=\"My API\")\n\n\n@app.get(\"/\")\nasync def root():\n    \"\"\"Root endpoint\"\"\"\n    return \x7b\"message\": \"Hello World\", \"status\": \"ok\"\x7d\n\n\n@app.get(\"/health\")\nasync def health():\n    \"\"\"Health check endpoint\"\"\"\n    return \x7b\"status\": \"healthy\"\x7d\n"

def fastapiRequirementsTxt : String := "fastapi==0.104.1\nuvicorn[standard]==0.24.0\npydantic==2.5.0\n"

def fastapiReadmeMd (name : String) : String := "# " ++ name ++ "\n\nFastAPI project created with Scaffold CLI.\n\n## Setup\n\n```bash\n# Create virtual environment\npython3 -m venv venv\nsource venv/bin/activate  # On Windows: venv\\Scripts\\activate\n\n# Install dependencies\npip install -r requirements.txt\n```\n\n## Run\n\n```bash\nuvicorn main:app --reload\n```\n\nVisit: http://127.0.0.1:8000\nAPI Docs: http://127.0.0.1:8000/docs\n\n## Endpoints\n\n- `GET /` - Root endpoint\n- `GET /health` - Health check\n"

def fastapiGitignore : String := "__pycache__/\n*.py[cod]\n*$py.class\nvenv/\n.env\n.venv\n.pytest_cache/\n.coverage\n*.log\n"

/-- `Installer._create_fastapi_project` (installer.py lines 126-221). -/
def create_fastapi_project (pp : FsPath) (fs : FS) : Bool × FS :=
  runOps fs (simpleOps pp
    [("main.py", fastapiMainPy),
     ("requirements.txt", fastapiRequirementsTxt),
     ("README.md", fastapiReadmeMd (pathName pp)),
     (".gitignore", fastapiGitignore)])

def flaskAppPy : String := "from flask import Flask, jsonify\n\n    app = Flask(__name__)\n\n    @app.route('/')\n    def home():\n        return jsonify(\x7b'message': 'Hello World', 'status': 'ok'\x7d)\n\n    @app.route('/health')\n    def health():\n        return jsonify(\x7b'status': 'healthy'\x7d)\n\n    if __name__ == '__main__':\n        app.run(debug=True, host='0.0.0.0', port=5000)\n    "

def flaskRequirementsTxt : String := "Flask==3.0.0\n    python-dotenv==1.0.0\n    "

def flaskReadmeMd (name : String) : String := "# " ++ name ++ "\n\n    Flask API created with Scaffold CLI.\n\n    ## Setup\n    ```bash\n    python3 -m venv venv\n    source venv/bin/activate\n    pip install -r requirements.txt\n    ```\n\n    ## Run\n    ```bash\n    python app.py\n    ```\n    Visit: http://127.0.0.1:5000\n    "

/-- `Installer._create_flask_project` (installer.py lines 223-277). -/
def create_flask_project (pp : FsPath) (fs : FS) : Bool × FS :=
  runOps fs (simpleOps pp
    [("app.py", flaskAppPy),
     ("requirements.txt", flaskRequirementsTxt),
     ("README.md", flaskReadmeMd (pathName pp))])

def djangoDrfRequirementsTxt : String := "Django==5.0.0\n    djangorestframework==3.14.0\n    django-cors-headers==4.3.1\n    python-dotenv==1.0.0\n    "

def djangoDrfReadmeMd (name : String) : String := "# " ++ name ++ "\n\n    Django REST Framework project.\n\n    ## Setup\n    ```bash\n    python3 -m venv venv\n    source venv/bin/activate\n    pip install -r requirements.txt\n    django-admin startproject config .\n    python manage.py startapp api\n    python manage.py migrate\n    python manage.py runserver\n    ```\n    "

/-- `Installer._create_django_drf_project` (installer.py lines 279-318). -/
def create_django_drf_project (pp : FsPath) (fs : FS) : Bool × FS :=
  runOps fs (simpleOps pp
    [("requirements.txt", djangoDrfRequirementsTxt),
     ("README.md", djangoDrfReadmeMd (pathName pp))])

def expressTsPackageJson (name : String) : String := "\x7b\"name\": \"" ++ name ++ "\",\n    \"version\": \"1.0.0\",\n    \"scripts\": \x7b\n        \"dev\": \"ts-node-dev src/index.ts\",\n        \"build\": \"tsc\",\n        \"start\": \"node dist/index.js\"\n    \x7d,\n    \"dependencies\": \x7b\n        \"express\": \"^4.18.2\"\n    \x7d,\n    \"devDependencies\": \x7b\n        \"@types/express\": \"^4.17.21\",\n        \"@types/node\": \"^20.0.0\",\n        \"ts-node-dev\": \"^2.0.0\",\n        \"typescript\": \"^5.3.0\"\n    \x7d\n    \x7d"

def expressTsIndexTs : String := "import express from 'express';\n\n    const app = express();\n    app.use(express.json());\n\n    app.get('/', (req, res) => \x7b\n    res.json(\x7b message: 'Hello World', status: 'ok' \x7d);\n    \x7d);\n\n    app.get('/health', (req, res) => \x7b\n    res.json(\x7b status: 'healthy' \x7d);\n    \x7d);\n\n    const PORT = process.env.PORT || 3000;\n    app.listen(PORT, () => \x7b\n    console.log(`Server running on http://localhost:$\x7bPORT\x7d`);\n    \x7d);\n    "

def expressTsTsconfigJson : String := "\x7b\n    \"compilerOptions\": \x7b\n        \"target\": \"ES2020\",\n        \"module\": \"commonjs\",\n        \"outDir\": \"./dist\",\n        \"rootDir\": \"./src\",\n        \"strict\": true,\n        \"esModuleInterop\": true\n    \x7d\n    \x7d"

/-- `Installer._create_express_ts_project` (installer.py lines 320-389).
Note the plain `src_dir.mkdir()` at line 349, without `exist_ok=True`. -/
def create_express_ts_project (pp : FsPath) (fs : FS) : Bool × FS :=
  runOps fs
    [FSOp.mkdirP pp,
     FSOp.writeText (pp ++ ["package.json"]) (expressTsPackageJson (pathName pp)),
     FSOp.mkdirPlain (pp ++ ["src"]),
     FSOp.writeText (pp ++ ["src", "index.ts"]) expressTsIndexTs,
     FSOp.writeText (pp ++ ["tsconfig.json"]) expressTsTsconfigJson]

def goGinMainGo : String := "package main\n\n    import (\n        \"github.com/gin-gonic/gin\"\n        \"net/http\"\n    )\n\n    func main() \x7b\n        r := gin.Default()\n\n        r.GET(\"/\", func(c *gin.Context) \x7b\n            c.JSON(http.StatusOK, gin.H\x7b\"message\": \"Hello World\", \"status\": \"ok\"\x7d)\n        \x7d)\n\n        r.GET(\"/health\", func(c *gin.Context) \x7b\n            c.JSON(http.StatusOK, gin.H\x7b\"status\": \"healthy\"\x7d)\n        \x7d)\n\n        r.Run(\":8080\")\n    \x7d\n    "

def goGinGoMod (name : String) : String := "module " ++ name ++ "\n\n    go 1.21\n\n    require github.com/gin-gonic/gin v1.9.1\n    "

def goGinReadmeMd (name : String) : String := "# " ++ name ++ "\n\n    Go Gin API.\n\n    ## Setup\n    ```bash\n    go mod download\n    ```\n\n    ## Run\n    ```bash\n    go run main.go\n    ```\n    Visit: http://localhost:8080\n    "

/-- `Installer._create_go_gin_project` (installer.py lines 391-452). -/
def create_go_gin_project (pp : FsPath) (fs : FS) : Bool × FS :=
  runOps fs (simpleOps pp
    [("main.go", goGinMainGo),
     ("go.mod", goGinGoMod (pathName pp)),
     ("README.md", goGinReadmeMd (pathName pp))])

def goFiberMainGo : String := "package main\n\n    import (\n        \"github.com/gofiber/fiber/v2\"\n        \"log\"\n    )\n\n    func main() \x7b\n        app := fiber.New()\n\n        app.Get(\"/\", func(c *fiber.Ctx) error \x7b\n            return c.JSON(fiber.Map\x7b\"message\": \"Hello World\", \"status\": \"ok\"\x7d)\n        \x7d)\n\n        app.Get(\"/health\", func(c *fiber.Ctx) error \x7b\n            return c.JSON(fiber.Map\x7b\"status\": \"healthy\"\x7d)\n        \x7d)\n\n        log.Fatal(app.Listen(\":8080\"))\n    \x7d\n    "

def goFiberGoMod (name : String) : String := "module " ++ name ++ "\n\n    go 1.21\n\n    require github.com/gofiber/fiber/v2 v2.51.0\n    "

/-- `Installer._create_go_fiber_project` (installer.py lines 454-497). -/
def create_go_fiber_project (pp : FsPath) (fs : FS) : Bool × FS :=
  runOps fs (simpleOps pp
    [("main.go", goFiberMainGo),
     ("go.mod", goFiberGoMod (pathName pp))])

def goEchoMainGo : String := "package main\n\n    import (\n        \"github.com/labstack/echo/v4\"\n        \"net/http\"\n    )\n\n    func main() \x7b\n        e := echo.New()\n\n        e.GET(\"/\", func(c echo.Context) error \x7b\n            return c.JSON(http.StatusOK, map[string]string\x7b\"message\": \"Hello World\", \"status\": \"ok\"\x7d)\n        \x7d)\n\n        e.GET(\"/health\", func(c echo.Context) error \x7b\n            return c.JSON(http.StatusOK, map[string]string\x7b\"status\": \"healthy\"\x7d)\n        \x7d)\n\n        e.Start(\":8080\")\n    \x7d\n    "

def goEchoGoMod (name : String) : String := "module " ++ name ++ "\n\n    go 1.21\n\n    require github.com/labstack/echo/v4 v4.11.4\n    "

/-- `Installer._create_go_echo_project` (installer.py lines 499-542). -/
def create_go_echo_project (pp : FsPath) (fs : FS) : Bool × FS :=
  runOps fs (simpleOps pp
    [("main.go", goEchoMainGo),
     ("go.mod", goEchoGoMod (pathName pp))])

def typerCliPy : String := "import typer\n    from rich.console import Console\n\n    app = typer.Typer()\n    console = Console()\n\n    @app.command()\n    def hello(name: str = typer.Option(\"World\", help=\"Name to greet\")):\n        \"\"\"Say hello\"\"\"\n        console.print(f\"[green]Hello \x7bname\x7d![/green]\")\n\n    @app.command()\n    def goodbye(name: str = \"World\"):\n        \"\"\"Say goodbye\"\"\"\n        console.print(f\"[yellow]Goodbye \x7bname\x7d![/yellow]\")\n\n    if __name__ == \"__main__\":\n        app()\n    "

def typerRequirementsTxt : String := "typer[all]==0.12.0\n    rich==13.7.0\n    "

def typerReadmeMd (name : String) : String := "# " ++ name ++ "\n\n    Python CLI app using Typer.\n\n    ## Setup\n    ```bash\n    python3 -m venv venv\n    source venv/bin/activate\n    pip install -r requirements.txt\n    ```\n\n    ## Run\n    ```bash\n    python cli.py hello --name \"Your Name\"\n    python cli.py goodbye\n    ```\n    "

/-- `Installer._create_python_cli_typer` (installer.py lines 660-718). -/
def create_python_cli_typer (pp : FsPath) (fs : FS) : Bool × FS :=
  runOps fs (simpleOps pp
    [("cli.py", typerCliPy),
     ("requirements.txt", typerRequirementsTxt),
     ("README.md", typerReadmeMd (pathName pp))])

def clickCliPy : String := "import click\n\n    @click.group()\n    def cli():\n        \"\"\"My CLI application\"\"\"\n        pass\n\n    @cli.command()\n    @click.option('--name', default='World', help='Name to greet')\n    def hello(name):\n        \"\"\"Say hello\"\"\"\n        click.echo(f'Hello \x7bname\x7d!')\n\n    @cli.command()\n    @click.argument('name', default='World')\n    def goodbye(name):\n        \"\"\"Say goodbye\"\"\"\n        click.echo(f'Goodbye \x7bname\x7d!')\n\n    if __name__ == '__main__':\n        cli()\n    "

def clickRequirementsTxt : String := "click==8.1.7\n    "

/-- `Installer._create_python_cli_click` (installer.py lines 720-760). -/
def create_python_cli_click (pp : FsPath) (fs : FS) : Bool × FS :=
  runOps fs (simpleOps pp
    [("cli.py", clickCliPy),
     ("requirements.txt", clickRequirementsTxt)])

def nodeCliPackageJson (name : String) : String := "\x7b\"name\": \"" ++ name ++ "\",\n    \"version\": \"1.0.0\",\n    \"bin\": \x7b\n        \"" ++ name ++ "\": \"./cli.js\"\n    \x7d,\n    \"dependencies\": \x7b\n        \"commander\": \"^11.1.0\",\n        \"chalk\": \"^4.1.2\"\n    \x7d\n    \x7d"

def nodeCliJs : String := "#!/usr/bin/env node\n    const \x7b program \x7d = require('commander');\n    const chalk = require('chalk');\n\n    program\n    .name('mycli')\n    .description('My CLI application')\n    .version('1.0.0');\n\n    program\n    .command('hello')\n    .description('Say hello')\n    .option('-n, --name <name>', 'name to greet', 'World')\n    .action((options) => \x7b\n        console.log(chalk.green(`Hello $\x7boptions.name\x7d!`));\n    \x7d);\n\n    program\n    .command('goodbye')\n    .description('Say goodbye')\n    .argument('[name]', 'name', 'World')\n    .action((name) => \x7b\n        console.log(chalk.yellow(`Goodbye $\x7bname\x7d!`));\n    \x7d);\n\n    program.parse();\n    "

/-- `Installer._create_node_cli` (installer.py lines 762-815). -/
def create_node_cli (pp : FsPath) (fs : FS) : Bool × FS :=
  runOps fs (simpleOps pp
    [("package.json", nodeCliPackageJson (pathName pp)),
     ("cli.js", nodeCliJs)])

def nodeCliTsPackageJson (name : String) : String := "\x7b\"name\": \"" ++ name ++ "\",\n    \"version\": \"1.0.0\",\n    \"bin\": \x7b\n        \"" ++ name ++ "\": \"./dist/cli.js\"\n    \x7d,\n    \"scripts\": \x7b\n        \"build\": \"tsc\",\n        \"dev\": \"ts-node src/cli.ts\"\n    \x7d,\n    \"dependencies\": \x7b\n        \"commander\": \"^11.1.0\",\n        \"chalk\": \"^4.1.2\"\n    \x7d,\n    \"devDependencies\": \x7b\n        \"@types/node\": \"^20.0.0\",\n        \"ts-node\": \"^10.9.2\",\n        \"typescript\": \"^5.3.0\"\n    \x7d\n    \x7d"

def nodeCliTsCliTs : String := "#!/usr/bin/env node\n    import \x7b program \x7d from 'commander';\n    import chalk from 'chalk';\n\n    program\n    .name('mycli')\n    .description('My CLI application')\n    .version('1.0.0');\n\n    program\n    .command('hello')\n    .description('Say hello')\n    .option('-n, --name <name>', 'name to greet', 'World')\n    .action((options: \x7b name: string \x7d) => \x7b\n        console.log(chalk.green(`Hello $\x7boptions.name\x7d!`));\n    \x7d);\n\n    program.parse();\n    "

def nodeCliTsTsconfigJson : String := "\x7b\n    \"compilerOptions\": \x7b\n        \"target\": \"ES2020\",\n        \"module\": \"commonjs\",\n        \"outDir\": \"./dist\",\n        \"rootDir\": \"./src\",\n        \"strict\": true\n    \x7d\n    \x7d"

/-- `Installer._create_node_cli_ts` (installer.py lines 817-888).
Like the express-ts writer it creates `src` with a plain `mkdir()`
(line 848), without `exist_ok=True`. -/
def create_node_cli_ts (pp : FsPath) (fs : FS) : Bool × FS :=
  runOps fs
    [FSOp.mkdirP pp,
     FSOp.writeText (pp ++ ["package.json"]) (nodeCliTsPackageJson (pathName pp)),
     FSOp.mkdirPlain (pp ++ ["src"]),
     FSOp.writeText (pp ++ ["src", "cli.ts"]) nodeCliTsCliTs,
     FSOp.writeText (pp ++ ["tsconfig.json"]) nodeCliTsTsconfigJson]

def cobraMainGo : String := "package main\n\n    import (\n        \"fmt\"\n        \"github.com/spf13/cobra\"\n        \"os\"\n    )\n\n    var rootCmd = &cobra.Command\x7b\n        Use:   \"mycli\",\n        Short: \"My CLI application\",\n    \x7d\n\n    var helloCmd = &cobra.Command\x7b\n        Use:   \"hello\",\n        Short: \"Say hello\",\n        Run: func(cmd *cobra.Command, args []string) \x7b\n            name, _ := cmd.Flags().GetString(\"name\")\n            fmt.Printf(\"Hello %s!\\n\", name)\n        \x7d,\n    \x7d\n\n    func init() \x7b\n        helloCmd.Flags().StringP(\"name\", \"n\", \"World\", \"Name to greet\")\n        rootCmd.AddCommand(helloCmd)\n    \x7d\n\n    func main() \x7b\n        if err := rootCmd.Execute(); err != nil \x7b\n            os.Exit(1)\n        \x7d\n    \x7d\n    "

def cobraGoMod (name : String) : String := "module " ++ name ++ "\n\n    go 1.21\n\n    require github.com/spf13/cobra v1.8.0\n    "

/-- `Installer._create_go_cli_cobra` (installer.py lines 890-945). -/
def create_go_cli_cobra (pp : FsPath) (fs : FS) : Bool × FS :=
  runOps fs (simpleOps pp
    [("main.go", cobraMainGo),
     ("go.mod", cobraGoMod (pathName pp))])

/-! Idempotence of the `simpleOps`-shaped writers. -/

theorem opWrites_simple (pp : FsPath) : ∀ (fcs : List (String × String)),
    opWrites (simpleOps pp fcs) = fcs.map (fun fc => pp ++ [fc.1]) := by
  intro fcs
  show opWrites (FSOp.mkdirP pp :: _) = _
  rw [opWrites]
  induction fcs with
  | nil => rfl
  | cons fc fcs ih => simpa [opWrites] using ih

theorem opPTargets_simple (pp : FsPath) : ∀ (fcs : List (String × String)),
    opPTargets (simpleOps pp fcs) = [pp] := by
  intro fcs
  show opPTargets (FSOp.mkdirP pp :: _) = _
  rw [opPTargets]
  induction fcs with
  | nil => rfl
  | cons fc fcs ih => simpa [opPTargets] using ih

theorem opPlainTargets_simple (pp : FsPath) : ∀ (fcs : List (String × String)),
    opPlainTargets (simpleOps pp fcs) = [] := by
  intro fcs
  show opPlainTargets (FSOp.mkdirP pp :: _) = _
  rw [opPlainTargets]
  induction fcs with
  | nil => rfl
  | cons fc fcs ih => simpa [opPlainTargets] using ih

theorem simpleOps_nodup (pp : FsPath) (fcs : List (String × String))
    (h : (fcs.map Prod.fst).Nodup) : (opWrites (simpleOps pp fcs)).Nodup := by
  rw [opWrites_simple]
  have hinj : Function.Injective (fun s : String => pp ++ [s]) := by
    intro a b hab
    have := List.append_cancel_left hab
    simpa using this
  have he : fcs.map (fun fc => pp ++ [fc.1]) =
      (fcs.map Prod.fst).map (fun s => pp ++ [s]) := by
    rw [List.map_map]; rfl
  rw [he]
  exact h.map hinj

theorem simpleOps_cross (pp : FsPath) (fcs : List (String × String)) :
    ∀ w ∈ opWrites (simpleOps pp fcs), ∀ t ∈ opPTargets (simpleOps pp fcs),
      leadsList w t = false := by
  rw [opWrites_simple, opPTargets_simple]
  intro w hw t ht
  simp only [List.mem_singleton] at ht
  rw [ht]
  simp only [List.mem_map] at hw
  obtain ⟨fc, _, he⟩ := hw
  subst he
  show leadsList (pp ++ [fc.1]) pp = false
  cases h : leadsList (pp ++ [fc.1]) pp with
  | false => rfl
  | true =>
    exfalso
    have := leadsList_length _ _ h
    simp at this

/-- A `simpleOps`-shaped writer with pairwise distinct file names is
idempotent: after a successful run, running it again succeeds and changes
nothing. -/
theorem simple_rerun (pp : FsPath) (fcs : List (String × String))
    (hnd : (fcs.map Prod.fst).Nodup) (fs : FS)
    (h : (runOps fs (simpleOps pp fcs)).1 = true) :
    runOps (runOps fs (simpleOps pp fcs)).2 (simpleOps pp fcs) =
      (true, (runOps fs (simpleOps pp fcs)).2) := by
  have hrun : runOps fs (simpleOps pp fcs) = (true, (runOps fs (simpleOps pp fcs)).2) := by
    rw [← h]
  exact runOps_rerun _ _ _ (opPlainTargets_simple pp fcs) (simpleOps_nodup pp fcs hnd)
    (simpleOps_cross pp fcs) hrun

/-! ## Stack registry (project_types.py)

`ProjectConfig` mirrors the Python dataclass; `__post_init__` replaces a
`None` `post_install` by `[]`, so the field is modelled directly as a list
with default `[]`. -/

structure ProjectConfig where
  name : String
  display_name : String
  category : String
  command : String
  requires : List String
  interactive : Bool := true
  post_install : List String := []
  language : String := "javascript"
deriving DecidableEq, Repr

/-- The `PROJECTS` registry (project_types.py lines 28-391), a dict from
category to the list of configs, modelled as an association list in
insertion order. -/
def PROJECTS : List (String × List ProjectConfig) := [
  ("frontend", [
    { name := "react-vite", display_name := "React (Vite)", category := "frontend",
      command := "npm create vite@latest {name}", requires := ["node", "npm"],
      interactive := true, language := "javascript" },
    { name := "react-vite-ts", display_name := "React + TypeScript (Vite)", category := "frontend",
      command := "npm create vite@latest {name} -- --template react-ts", requires := ["node", "npm"],
      interactive := true, language := "typescript" },
    { name := "nextjs", display_name := "Next.js", category := "frontend",
      command := "npx create-next-app@latest {name}", requires := ["node", "npm"],
      interactive := true, language := "javascript" },
    { name := "vue-vite", display_name := "Vue (Vite)", category := "frontend",
      command := "npm create vite@latest {name} -- --template vue", requires := ["node", "npm"],
      interactive := true, language := "javascript" },
    { name := "vue-vite-ts", display_name := "Vue + TypeScript (Vite)", category := "frontend",
      command := "npm create vite@latest {name} -- --template vue-ts", requires := ["node", "npm"],
      interactive := true, language := "typescript" },
    { name := "svelte", display_name := "Svelte (Vite)", category := "frontend",
      command := "npm create vite@latest {name} -- --template svelte", requires := ["node", "npm"],
      interactive := true, language := "javascript" },
    { name := "svelte-ts", display_name := "Svelte + TypeScript (Vite)", category := "frontend",
      command := "npm create vite@latest {name} -- --template svelte-ts", requires := ["node", "npm"],
      interactive := true, language := "typescript" },
    { name := "solidjs", display_name := "Solid.js (Vite)", category := "frontend",
      command := "npm create vite@latest {name} -- --template solid", requires := ["node", "npm"],
      interactive := true, language := "javascript" },
    { name := "solidjs-ts", display_name := "Solid.js + TypeScript (Vite)", category := "frontend",
      command := "npm create vite@latest {name} -- --template solid-ts", requires := ["node", "npm"],
      interactive := true, language := "typescript" },
    { name := "astro", display_name := "Astro", category := "frontend",
      command := "npm create astro@latest {name}", requires := ["node", "npm"],
      interactive := true, language := "javascript" },
    { name := "angular", display_name := "Angular", category := "frontend",
      command := "npx @angular/cli new {name}", requires := ["node", "npm"],
      interactive := true, language := "typescript" }]),
  ("api", [
    { name := "express", display_name := "Express.js", category := "api",
      command := "npx express-generator {name} --view=ejs --git", requires := ["node", "npm"],
      interactive := false, language := "javascript" },
    { name := "express-ts", display_name := "Express + TypeScript", category := "api",
      command := "custom:express-ts", requires := ["node", "npm"],
      interactive := false, language := "typescript" },
    { name := "nestjs", display_name := "NestJS", category := "api",
      command := "npx @nestjs/cli new {name}", requires := ["node", "npm"],
      interactive := true, language := "typescript" },
    { name := "fastapi", display_name := "FastAPI", category := "api",
      command := "custom:fastapi", requires := ["python3"],
      interactive := false, language := "python" },
    { name := "flask", display_name := "Flask", category := "api",
      command := "custom:flask", requires := ["python3"],
      interactive := false, language := "python" },
    { name := "go-gin", display_name := "Go (Gin)", category := "api",
      command := "custom:go-gin", requires := ["go"],
      interactive := false, language := "go" },
    { name := "go-fiber", display_name := "Go (Fiber)", category := "api",
      command := "custom:go-fiber", requires := ["go"],
      interactive := false, language := "go" },
    { name := "go-echo", display_name := "Go (Echo)", category := "api",
      command := "custom:go-echo", requires := ["go"],
      interactive := false, language := "go" },
    { name := "rust-axum", display_name := "Rust (Axum)", category := "api",
      command := "custom:rust-axum", requires := ["cargo"],
      interactive := false, language := "rust" },
    { name := "rust-actix", display_name := "Rust (Actix-web)", category := "api",
      command := "custom:rust-actix", requires := ["cargo"],
      interactive := false, language := "rust" },
    { name := "django-drf", display_name := "Django REST Framework", category := "api",
      command := "custom:django-drf", requires := ["python3"],
      interactive := false, language := "python" },
    { name := "rails-api", display_name := "Ruby on Rails (API)", category := "api",
      command := "rails new {name} --api", requires := ["ruby", "rails"],
      interactive := false, language := "ruby" }]),
  ("framework", [
    { name := "django", display_name := "Django", category := "framework",
      command := "django-admin startproject {name}", requires := ["python3", "django-admin"],
      interactive := false, language := "python" },
    { name := "laravel", display_name := "Laravel", category := "framework",
      command := "composer create-project laravel/laravel {name}", requires := ["composer", "php"],
      interactive := false, language := "php" },
    { name := "rails", display_name := "Ruby on Rails", category := "framework",
      command := "rails new {name}", requires := ["ruby", "rails"],
      interactive := false, language := "ruby" },
    { name := "sveltekit", display_name := "SvelteKit", category := "framework",
      command := "npm create svelte@latest {name}", requires := ["node", "npm"],
      interactive := true, language := "javascript" }]),
  ("mobile", [
    { name := "react-native", display_name := "React Native", category := "mobile",
      command := "npx react-native@latest init {name}", requires := ["node", "npm"],
      interactive := false, language := "javascript" },
    { name := "expo", display_name := "Expo (React Native)", category := "mobile",
      command := "npx create-expo-app@latest {name}", requires := ["node", "npm"],
      interactive := true, language := "javascript" },
    { name := "flutter", display_name := "Flutter", category := "mobile",
      command := "flutter create {name}", requires := ["flutter"],
      interactive := false, language := "dart" }]),
  ("cli", [
    { name := "python-cli-typer", display_name := "Python CLI (Typer)", category := "cli",
      command := "custom:python-cli-typer", requires := ["python3"],
      interactive := false, language := "python" },
    { name := "python-cli-click", display_name := "Python CLI (Click)", category := "cli",
      command := "custom:python-cli-click", requires := ["python3"],
      interactive := false, language := "python" },
    { name := "node-cli", display_name := "Node.js CLI", category := "cli",
      command := "custom:node-cli", requires := ["node", "npm"],
      interactive := false, language := "javascript" },
    { name := "node-cli-ts", display_name := "Node.js CLI (TypeScript)", category := "cli",
      command := "custom:node-cli-ts", requires := ["node", "npm"],
      interactive := false, language := "typescript" },
    { name := "go-cli-cobra", display_name := "Go CLI (Cobra)", category := "cli",
      command := "custom:go-cli-cobra", requires := ["go"],
      interactive := false, language := "go" },
    { name := "rust-cli-clap", display_name := "Rust CLI (Clap)", category := "cli",
      command := "custom:rust-cli-clap", requires := ["cargo"],
      interactive := false, language := "rust" }])]

/-- `get_project_categories` (project_types.py lines 394-396). -/
def get_project_categories : List String := PROJECTS.map Prod.fst

/-- `get_projects_by_category` (project_types.py lines 399-401):
`PROJECTS.get(category, [])`. -/
def get_projects_by_category (category : String) : List ProjectConfig :=
  (PROJECTS.lookup category).getD []

/-- `get_all_projects` (project_types.py lines 413-418): every config, in
category insertion order. -/
def get_all_projects : List ProjectConfig :=
  PROJECTS.foldl (fun acc kv => acc ++ kv.2) []

/-- `get_project_by_name` (project_types.py lines 404-410): the first config
whose `name` matches, scanning categories in insertion order. -/
def get_project_by_name (name : String) : Option ProjectConfig :=
  get_all_projects.find? (fun project => project.name == name)

/-! ## Installation dispatcher (installer.py `Installer.install`)

The child-process side effects are abstracted by a `runner` oracle, giving
the success of each shell command (`CommandRunner.run`), and a
`customResult` oracle, giving the success of each custom template writer
(whose filesystem behaviour is modelled separately above).  Besides the
boolean result, the model returns the trace of performed actions, in order,
so that "a command was never invoked" is expressible. -/

/-- One observable action of the installer. -/
inductive Step where
  /-- the primary install command, run in the parent directory -/
  | primary (cmd : String) (cwd : FsPath) (showOutput : Bool)
  /-- a post-install command, run inside the project directory -/
  | post (cmd : String) (cwd : FsPath)
  /-- invocation of the custom template writer for `kind` -/
  | custom (kind : String)
deriving DecidableEq, Repr

def Step.isPost : Step → Bool
  | .post _ _ => true
  | _ => false

/-- The keys of the `handlers` dict in `Installer._handle_custom_install`
(installer.py lines 101-117). -/
def handlersKeys : List String :=
  ["fastapi", "flask", "django-drf", "express-ts", "go-gin", "go-fiber",
   "go-echo", "rust-axum", "rust-actix", "python-cli-typer",
   "python-cli-click", "node-cli", "node-cli-ts", "go-cli-cobra",
   "rust-cli-clap"]

/-- `config.command.split(":")[1]` (installer.py line 99).  The index is
always in range for commands starting with `custom:`; out of range is
modelled as `""` (Python would raise `IndexError`, which cannot happen on
the guarded path). -/
def customType (cmd : String) : String :=
  String.mk ((splitOnChar ':' cmd.data).getD 1 [])

/-- `Installer._handle_custom_install` (installer.py lines 97-124): look the
kind up in the handlers table; if found, delegate and return the handler's
result; otherwise print an "Unknown custom installer" error and return
`False` without invoking anything. -/
def handle_custom_install (customResult : String → Bool) (config : ProjectConfig) :
    Bool × List Step :=
  let custom_type := customType config.command
  if custom_type ∈ handlersKeys then (customResult custom_type, [Step.custom custom_type])
  else (false, [])

/-- `Installer._run_post_install` (installer.py lines 77-95): run every
post-install command inside the project directory; a failing step is only
reported ("Post-install step failed ... you may need to run this
manually"), never breaks the loop, and the method always returns `True`. -/
def run_post_install (config : ProjectConfig) (project_path : FsPath) :
    Bool × List Step :=
  (true, config.post_install.map (fun cmd => Step.post cmd project_path))

/-- `Installer.install` (installer.py lines 23-75). -/
def install (runner : String → FsPath → Bool → Bool) (customResult : String → Bool)
    (config : ProjectConfig) (project_name : String) (parent_dir : FsPath)
    (skip_post_install : Bool) : Bool × List Step :=
  let project_path := parent_dir ++ [project_name]
  if strStarts config.command "custom:" then
    handle_custom_install customResult config
  else
    let command := formatCmd config.command project_name
    if runner command parent_dir config.interactive then
      if !config.post_install.isEmpty && !skip_post_install then
        let pr := run_post_install config project_path
        (pr.1, Step.primary command parent_dir config.interactive :: pr.2)
      else (true, [Step.primary command parent_dir config.interactive])
    else (false, [Step.primary command parent_dir config.interactive])

/-! ## Command runner (command_runner.py)

A child process is abstracted by its wall-clock duration, exit code and
captured output; `runCmd` mirrors `CommandRunner.run` dispatching to
`_run_interactive` (`show_output=True`, streams inherited, no timeout) or
`_run_with_spinner` (`show_output=False`, output captured,
`timeout=300`). -/

structure Proc where
  duration : Nat
  exitCode : Int
  stdout : String
  stderr : String

/-- What the runner prints about the finished command. -/
inductive LogMsg where
  | success (desc : String)
  /-- failure with, on the captured path, the displayed stderr excerpt -/
  | failed (desc : String) (shownStderr : Option (List Char))
  /-- `subprocess.TimeoutExpired` was caught -/
  | timedOut (desc : String)
deriving DecidableEq, Repr

/-- `CommandRunner._run_interactive` (command_runner.py lines 45-74):
no `timeout` argument is passed; success iff exit code 0. -/
def run_interactive (p : Proc) (description : String) : Bool × LogMsg :=
  if p.exitCode == 0 then (true, LogMsg.success description)
  else (false, LogMsg.failed description none)

/-- `CommandRunner._run_with_spinner` (command_runner.py lines 76-112):
`subprocess.run(..., capture_output=True, timeout=300)`; a
`TimeoutExpired` (duration beyond 300 seconds) is caught and reported as
failure; a non-zero exit is reported as failure with the first 500
characters of the captured stderr (when non-empty). -/
def run_with_spinner (p : Proc) (description : String) : Bool × LogMsg :=
  if 300 < p.duration then (false, LogMsg.timedOut description)
  else if p.exitCode == 0 then (true, LogMsg.success description)
  else
    (false, LogMsg.failed description
      (if p.stderr.data.isEmpty then none else some (p.stderr.data.take 500)))

/-- `CommandRunner.run` (command_runner.py lines 21-43). -/
def runCmd (p : Proc) (description : String) (show_output : Bool) : Bool × LogMsg :=
  if show_output then run_interactive p description
  else run_with_spinner p description

/-! ## Dependency validator (validators/dependencies.py) -/

structure ToolConfig where
  check : String
  install_hint : String
  min_version : Option String
  description : String
deriving DecidableEq, Repr

/-- The `DependencyValidator.TOOLS` table (dependencies.py lines 19-98). -/
def TOOLS : List (String × ToolConfig) := [
  ("node", { check := "node --version", install_hint := "https://nodejs.org/",
             min_version := some "18.0.0", description := "Node.js runtime" }),
  ("npm", { check := "npm --version", install_hint := "https://nodejs.org/ (comes with Node.js)",
            min_version := some "9.0.0", description := "Node package manager" }),
  ("python3", { check := "python3 --version", install_hint := "https://python.org/",
                min_version := some "3.10.0", description := "Python 3 runtime" }),
  ("pip", { check := "pip --version", install_hint := "python3 -m ensurepip",
            min_version := some "20.0.0", description := "Python package manager" }),
  ("django-admin", { check := "django-admin --version", install_hint := "pip install django",
                     min_version := none, description := "Django CLI" }),
  ("composer", { check := "composer --version", install_hint := "https://getcomposer.org/",
                 min_version := none, description := "PHP dependency manager" }),
  ("git", { check := "git --version", install_hint := "https://git-scm.com/",
            min_version := none, description := "Git version control" }),
  ("php", { check := "php --version", install_hint := "https://php.net/",
            min_version := some "8.1.0", description := "PHP runtime" }),
  ("go", { check := "go version", install_hint := "https://go.dev/doc/install",
           min_version := some "1.20.0", description := "Go" }),
  ("cargo", { check := "cargo --version", install_hint := "https://rustup.rs/",
              min_version := none, description := "Rust/Cargo" }),
  ("ruby", { check := "ruby --version", install_hint := "https://ruby-lang.org/",
             min_version := some "3.0.0", description := "Ruby" }),
  ("rails", { check := "rails --version", install_hint := "gem install rails",
              min_version := none, description := "Rails" }),
  ("flutter", { check := "flutter --version", install_hint := "https://docs.flutter.dev/",
                min_version := none, description := "Flutter" })]

/-- One entry of the `results` dict built by `validate`. -/
structure ToolResult where
  available : Bool
  version : Option String
  config : ToolConfig
deriving DecidableEq, Repr

/-- The loop body of `DependencyValidator.validate` (dependencies.py lines
110-127), with the outcome of `_check_tool` abstracted by the `checkTool`
oracle.  A tool absent from `TOOLS` only triggers a printed warning and
`continue`: it enters neither `results` nor the `all_valid` conjunction. -/
def validateGo (checkTool : String → Bool × Option String) :
    List String → Bool → List (String × ToolResult) → Bool × List (String × ToolResult)
  | [], all_valid, results => (all_valid, results)
  | tool :: rest, all_valid, results =>
    match TOOLS.lookup tool with
    | none => validateGo checkTool rest all_valid results
    | some cfg =>
      let r := checkTool tool
      validateGo checkTool rest (all_valid && r.1)
        (results ++ [(tool, { available := r.1, version := r.2, config := cfg })])

/-- `DependencyValidator.validate` (dependencies.py lines 100-128). -/
def validate (checkTool : String → Bool × Option String) (required : List String) :
    Bool × List (String × ToolResult) :=
  validateGo checkTool required true []

/-! ## Supporting lemmas for the claims -/

theorem validateGo_filter (checkTool : String → Bool × Option String) :
    ∀ (required : List String) (all_valid : Bool) (results : List (String × ToolResult)),
      validateGo checkTool required all_valid results =
        validateGo checkTool (required.filter (fun t => (TOOLS.lookup t).isSome))
          all_valid results := by
  intro required
  induction required with
  | nil => intro all_valid results; rfl
  | cons tool rest ih =>
    intro all_valid results
    rw [List.filter]
    cases hl : TOOLS.lookup tool with
    | none =>
      rw [validateGo, hl]
      simp only [hl, Option.isSome_none]
      exact ih all_valid results
    | some cfg =>
      rw [validateGo, hl]
      simp only [hl, Option.isSome_some]
      rw [validateGo, hl]
      exact ih _ _

theorem validateGo_keys (checkTool : String → Bool × Option String) :
    ∀ (required : List String) (all_valid : Bool) (results : List (String × ToolResult)),
      (results.all (fun kv => (TOOLS.lookup kv.1).isSome)) = true →
      ((validateGo checkTool required all_valid results).2.all
        (fun kv => (TOOLS.lookup kv.1).isSome)) = true := by
  intro required
  induction required with
  | nil => intro all_valid results h; exact h
  | cons tool rest ih =>
    intro all_valid results h
    rw [validateGo]
    cases hl : TOOLS.lookup tool with
    | none => exact ih _ _ h
    | some cfg =>
      apply ih
      rw [List.all_append]
      simp [h, hl]

theorem lookup_eq_none_of_not_mem {β : Type} :
    ∀ (l : List (String × β)) (c : String),
      c ∉ l.map Prod.fst → l.lookup c = none := by
  intro l
  induction l with
  | nil => intro c _; rfl
  | cons kv l ih =>
    intro c hc
    obtain ⟨k, v⟩ := kv
    have hck : (c == k) = false := by
      apply beq_eq_false_iff_ne.mpr
      intro h
      apply hc
      show c ∈ k :: l.map Prod.fst
      rw [h]
      exact List.mem_cons_self _ _
    rw [List.lookup, hck]
    apply ih c
    intro h
    apply hc
    show c ∈ k :: l.map Prod.fst
    exact List.mem_cons_of_mem _ h

theorem find_name_nodup :
    ∀ (l : List ProjectConfig), (l.map (fun p => p.name)).Nodup →
      ∀ p ∈ l, l.find? (fun q => q.name == p.name) = some p := by
  intro l
  induction l with
  | nil => intro _ p hp; simp at hp
  | cons q l ih =>
    intro hnd p hp
    rw [List.find?]
    cases hqp : q.name == p.name with
    | true =>
      have heq : q.name = p.name := eq_of_beq hqp
      rcases List.mem_cons.mp hp with h | h
      · rw [h]
      · exfalso
        have hq : q.name ∉ l.map (fun p => p.name) := (List.nodup_cons.mp hnd).1
        apply hq
        rw [heq]
        exact List.mem_map.mpr ⟨p, h, rfl⟩
    | false =>
      have hpq : p ≠ q := by
        intro h
        rw [h] at hqp
        simp at hqp
      have hp' : p ∈ l := by
        rcases List.mem_cons.mp hp with h | h
        · exact absurd h hpq
        · exact h
      exact ih (List.nodup_cons.mp hnd).2 p hp'

/-- Registry self-check, evaluated over the shipped `PROJECTS` table: every
non-custom command contains the `name` replacement field exactly once, and
contains exactly one opening brace. -/
theorem registry_placeholder_once :
    ∀ c ∈ get_all_projects, strStarts c.command "custom:" = false →
      countOcc nameTok c.command.data = 1 ∧ countBrace c.command.data = 1 := by
  decide

/-- A demonstration filesystem: just the root directory, no files. -/
def demoFS : FS := ⟨[[]], fun _ => none⟩

/-! ## Claims -/

/-- C1: for every project configuration whose primary install command
succeeds (and with `skip_post_install = false`), `install` returns overall
success, whatever the post-install commands do — `_run_post_install`
reports failing steps but always returns `True`, so post-install failures
never change the result.  The `runner` oracle is arbitrary, so in
particular every declared post-install command may fail. -/
theorem install_post_install_leniency
    (runner : String → FsPath → Bool → Bool) (customResult : String → Bool)
    (config : ProjectConfig) (project_name : String) (parent_dir : FsPath)
    (hnc : strStarts config.command "custom:" = false)
    (hok : runner (formatCmd config.command project_name) parent_dir config.interactive = true) :
    (install runner customResult config project_name parent_dir false).1 = true := by
  cases hpi : config.post_install.isEmpty with
  | true => simp [install, hnc, hok, hpi]
  | false => simp [install, hnc, hok, hpi, run_post_install]

/-- Witness for C1: a configuration with one declared post-install command,
a runner that succeeds on the primary command and fails on everything else
(in particular on the post-install command): `install` still succeeds. -/
theorem install_post_install_leniency_witness :
    strStarts "echo make {name}" "custom:" = false ∧
    ((fun c (_ : FsPath) (_ : Bool) => c == "echo make demo")
      (formatCmd "echo make {name}" "demo") ([] : FsPath) false) = true ∧
    (install (fun c _ _ => c == "echo make demo") (fun _ => false)
      { name := "demo-cfg", display_name := "Demo", category := "api",
        command := "echo make {name}", requires := [],
        interactive := false, post_install := ["npm install"], language := "python" }
      "demo" [] false).1 = true := by
  refine ⟨by decide, by decide, ?_⟩
  exact install_post_install_leniency _ _ _ _ _ (by decide) (by decide)

/-- C2: for every non-custom project configuration, a failing primary
command makes `install` return failure immediately: the result is `false`
and the trace contains exactly the primary command — no post-install
command is ever invoked. -/
theorem install_primary_failure_stops
    (runner : String → FsPath → Bool → Bool) (customResult : String → Bool)
    (config : ProjectConfig) (project_name : String) (parent_dir : FsPath)
    (skip_post_install : Bool)
    (hnc : strStarts config.command "custom:" = false)
    (hfail : runner (formatCmd config.command project_name) parent_dir config.interactive = false) :
    install runner customResult config project_name parent_dir skip_post_install =
      (false, [Step.primary (formatCmd config.command project_name) parent_dir
        config.interactive]) := by
  simp [install, hnc, hfail]

/-- Witness for C2: a configuration with a declared post-install command and
a runner that always fails: `install` fails with only the primary command
in the trace. -/
theorem install_primary_failure_stops_witness :
    strStarts "echo make {name}" "custom:" = false ∧
    ((fun (_ : String) (_ : FsPath) (_ : Bool) => false)
      (formatCmd "echo make {name}" "demo") ([] : FsPath) false) = false ∧
    install (fun _ _ _ => false) (fun _ => true)
      { name := "demo-cfg", display_name := "Demo", category := "api",
        command := "echo make {name}", requires := [],
        interactive := false, post_install := ["npm install"], language := "python" }
      "demo" [] false =
      (false, [Step.primary "echo make demo" [] false]) := by
  refine ⟨by decide, by decide, ?_⟩
  have h := install_primary_failure_stops (fun _ _ _ => false) (fun _ => true)
    { name := "demo-cfg", display_name := "Demo", category := "api",
      command := "echo make {name}", requires := [],
      interactive := false, post_install := ["npm install"], language := "python" }
    "demo" [] false (by decide) (by decide)
  rw [h]
  decide

/-- C3: `install` with `skip_post_install = true` never performs a
post-install step, for every configuration (custom or not) and every
runner: the trace contains no `Step.post` entry. -/
theorem install_skip_no_post_steps
    (runner : String → FsPath → Bool → Bool) (customResult : String → Bool)
    (config : ProjectConfig) (project_name : String) (parent_dir : FsPath) :
    ((install runner customResult config project_name parent_dir true).2.all
      (fun s => !s.isPost)) = true := by
  cases hc : strStarts config.command "custom:" with
  | true =>
    by_cases hk : customType config.command ∈ handlersKeys
    · simp [install, hc, handle_custom_install, hk, Step.isPost]
    · simp [install, hc, handle_custom_install, hk]
  | false =>
    cases hr : runner (formatCmd config.command project_name) parent_dir config.interactive with
    | true => simp [install, hc, hr, Step.isPost]
    | false => simp [install, hc, hr, Step.isPost]

/-- Counterexample for C4: the `express-ts` custom template writer is not
idempotent.  Starting from an empty filesystem, the first run succeeds, but
the second run fails: `src_dir.mkdir()` (installer.py line 349) is called
without `exist_ok=True` and raises `FileExistsError` on the directory the
first run created. -/
theorem express_ts_rerun_fails :
    (create_express_ts_project ["app"] ⟨[[]], fun _ => none⟩).1 = true ∧
    (create_express_ts_project ["app"]
      (create_express_ts_project ["app"] ⟨[[]], fun _ => none⟩).2).1 = false := by
  constructor
  · decide
  · decide

/-- C4 (amended): every custom template writer that creates its directories
with `mkdir(parents=True, exist_ok=True)` and then only writes files —
namely fastapi, flask, django-drf, go-gin, go-fiber, go-echo,
python-cli-typer, python-cli-click, node-cli and go-cli-cobra — is
idempotent: after a successful run, re-running on the same target with the
same project name succeeds and reproduces the identical filesystem, byte
for byte (a pre-existing target directory is not an error).  The express-ts
and node-cli-ts writers are excluded (their nested plain `mkdir()` fails on
re-run, see the counterexample), as are the cargo-based writers, which
shell out to `cargo new`. -/
theorem custom_writers_rerun_idempotent :
    ∀ (pp : FsPath) (fs : FS),
      ((create_fastapi_project pp fs).1 = true →
        create_fastapi_project pp (create_fastapi_project pp fs).2 =
          (true, (create_fastapi_project pp fs).2)) ∧
      ((create_flask_project pp fs).1 = true →
        create_flask_project pp (create_flask_project pp fs).2 =
          (true, (create_flask_project pp fs).2)) ∧
      ((create_django_drf_project pp fs).1 = true →
        create_django_drf_project pp (create_django_drf_project pp fs).2 =
          (true, (create_django_drf_project pp fs).2)) ∧
      ((create_go_gin_project pp fs).1 = true →
        create_go_gin_project pp (create_go_gin_project pp fs).2 =
          (true, (create_go_gin_project pp fs).2)) ∧
      ((create_go_fiber_project pp fs).1 = true →
        create_go_fiber_project pp (create_go_fiber_project pp fs).2 =
          (true, (create_go_fiber_project pp fs).2)) ∧
      ((create_go_echo_project pp fs).1 = true →
        create_go_echo_project pp (create_go_echo_project pp fs).2 =
          (true, (create_go_echo_project pp fs).2)) ∧
      ((create_python_cli_typer pp fs).1 = true →
        create_python_cli_typer pp (create_python_cli_typer pp fs).2 =
          (true, (create_python_cli_typer pp fs).2)) ∧
      ((create_python_cli_click pp fs).1 = true →
        create_python_cli_click pp (create_python_cli_click pp fs).2 =
          (true, (create_python_cli_click pp fs).2)) ∧
      ((create_node_cli pp fs).1 = true →
        create_node_cli pp (create_node_cli pp fs).2 =
          (true, (create_node_cli pp fs).2)) ∧
      ((create_go_cli_cobra pp fs).1 = true →
        create_go_cli_cobra pp (create_go_cli_cobra pp fs).2 =
          (true, (create_go_cli_cobra pp fs).2)) := by
  intro pp fs
  refine ⟨fun h => simple_rerun _ _ ?_ _ h, fun h => simple_rerun _ _ ?_ _ h,
    fun h => simple_rerun _ _ ?_ _ h, fun h => simple_rerun _ _ ?_ _ h,
    fun h => simple_rerun _ _ ?_ _ h, fun h => simple_rerun _ _ ?_ _ h,
    fun h => simple_rerun _ _ ?_ _ h, fun h => simple_rerun _ _ ?_ _ h,
    fun h => simple_rerun _ _ ?_ _ h, fun h => simple_rerun _ _ ?_ _ h⟩ <;>
  · simp only [List.map_cons, List.map_nil]
    decide

/-- Witness for C4 (amended): each of the ten writers run on an empty
filesystem succeeds, and the theorem yields the successful, state-preserving
re-run. -/
theorem custom_writers_rerun_idempotent_witness :
    ((create_fastapi_project ["app"] demoFS).1 = true ∧
      create_fastapi_project ["app"] (create_fastapi_project ["app"] demoFS).2 =
        (true, (create_fastapi_project ["app"] demoFS).2)) ∧
    ((create_flask_project ["app"] demoFS).1 = true ∧
      create_flask_project ["app"] (create_flask_project ["app"] demoFS).2 =
        (true, (create_flask_project ["app"] demoFS).2)) ∧
    ((create_django_drf_project ["app"] demoFS).1 = true ∧
      create_django_drf_project ["app"] (create_django_drf_project ["app"] demoFS).2 =
        (true, (create_django_drf_project ["app"] demoFS).2)) ∧
    ((create_go_gin_project ["app"] demoFS).1 = true ∧
      create_go_gin_project ["app"] (create_go_gin_project ["app"] demoFS).2 =
        (true, (create_go_gin_project ["app"] demoFS).2)) ∧
    ((create_go_fiber_project ["app"] demoFS).1 = true ∧
      create_go_fiber_project ["app"] (create_go_fiber_project ["app"] demoFS).2 =
        (true, (create_go_fiber_project ["app"] demoFS).2)) ∧
    ((create_go_echo_project ["app"] demoFS).1 = true ∧
      create_go_echo_project ["app"] (create_go_echo_project ["app"] demoFS).2 =
        (true, (create_go_echo_project ["app"] demoFS).2)) ∧
    ((create_python_cli_typer ["app"] demoFS).1 = true ∧
      create_python_cli_typer ["app"] (create_python_cli_typer ["app"] demoFS).2 =
        (true, (create_python_cli_typer ["app"] demoFS).2)) ∧
    ((create_python_cli_click ["app"] demoFS).1 = true ∧
      create_python_cli_click ["app"] (create_python_cli_click ["app"] demoFS).2 =
        (true, (create_python_cli_click ["app"] demoFS).2)) ∧
    ((create_node_cli ["app"] demoFS).1 = true ∧
      create_node_cli ["app"] (create_node_cli ["app"] demoFS).2 =
        (true, (create_node_cli ["app"] demoFS).2)) ∧
    ((create_go_cli_cobra ["app"] demoFS).1 = true ∧
      create_go_cli_cobra ["app"] (create_go_cli_cobra ["app"] demoFS).2 =
        (true, (create_go_cli_cobra ["app"] demoFS).2)) := by
  have h := custom_writers_rerun_idempotent ["app"] demoFS
  exact ⟨⟨by decide, h.1 (by decide)⟩,
    ⟨by decide, h.2.1 (by decide)⟩,
    ⟨by decide, h.2.2.1 (by decide)⟩,
    ⟨by decide, h.2.2.2.1 (by decide)⟩,
    ⟨by decide, h.2.2.2.2.1 (by decide)⟩,
    ⟨by decide, h.2.2.2.2.2.1 (by decide)⟩,
    ⟨by decide, h.2.2.2.2.2.2.1 (by decide)⟩,
    ⟨by decide, h.2.2.2.2.2.2.2.1 (by decide)⟩,
    ⟨by decide, h.2.2.2.2.2.2.2.2.1 (by decide)⟩,
    ⟨by decide, h.2.2.2.2.2.2.2.2.2 (by decide)⟩⟩

/-- C5: every non-custom command of the shipped registry contains the
`name` replacement field exactly once, and substituting any directory-safe
name (modelled as: a name containing no brace character) leaves no
unresolved `name` field in the resulting command. -/
theorem registry_command_placeholder :
    ∀ config ∈ get_all_projects, strStarts config.command "custom:" = false →
      countOcc nameTok config.command.data = 1 ∧
      ∀ nm : String, countBrace nm.data = 0 →
        countOcc nameTok (formatCmd config.command nm).data = 0 := by
  intro config hmem hnc
  obtain ⟨h1, h2⟩ := registry_placeholder_once config hmem hnc
  refine ⟨h1, fun nm hnm => ?_⟩
  show countOcc nameTok (replaceOcc nameTok nm.data config.command.data) = 0
  exact countOcc_replace_eq_zero _ _ h1 h2 hnm

/-- Witness for C5: the `react-vite` registry entry, substituted with the
name `demo`. -/
theorem registry_command_placeholder_witness :
    countOcc nameTok "npm create vite@latest {name}".data = 1 ∧
    countOcc nameTok (formatCmd "npm create vite@latest {name}" "demo").data = 0 := by
  have h := registry_command_placeholder
    { name := "react-vite", display_name := "React (Vite)", category := "frontend",
      command := "npm create vite@latest {name}", requires := ["node", "npm"],
      interactive := true, language := "javascript" }
    (by decide) (by decide)
  exact ⟨h.1, h.2 "demo" (by decide)⟩

/-- C6: `DependencyValidator.validate` ignores required tools absent from
the `TOOLS` table: validation is a total function (the unknown key is never
dereferenced — the loop prints a warning and continues), its result is the
same as validating the known tools only (so the unknown tool affects
neither the pass/fail verdict nor the results), and every key of the
results map is a known tool. -/
theorem validate_skips_unknown_tools :
    (∀ (checkTool : String → Bool × Option String) (required : List String),
      validate checkTool required =
        validate checkTool (required.filter (fun t => (TOOLS.lookup t).isSome))) ∧
    (∀ (checkTool : String → Bool × Option String) (required : List String),
      ((validate checkTool required).2.all
        (fun kv => (TOOLS.lookup kv.1).isSome)) = true) := by
  constructor
  · intro checkTool required
    exact validateGo_filter checkTool required true []
  · intro checkTool required
    exact validateGo_keys checkTool required true [] (by rfl)

/-- C7: `CommandRunner` behaviour.  On the non-interactive path
(`show_output = false`, `_run_with_spinner`) the command is bounded by the
fixed 300-second timeout, and hitting it is reported as failure through the
dedicated `timedOut` message, distinct from the non-zero-exit `failed`
message; captured stderr shown on failure is truncated to at most 500
characters.  On the interactive path (`show_output = true`,
`_run_interactive`) no timeout is applied: the result does not depend on
the process duration and is success exactly for exit code 0. -/
theorem runCmd_timeout_and_truncation :
    (∀ (p : Proc) (d : String), 300 < p.duration →
      runCmd p d false = (false, LogMsg.timedOut d)) ∧
    (∀ (p : Proc) (d : String) (sh : List Char),
      (runCmd p d false).2 = LogMsg.failed d (some sh) → sh.length ≤ 500) ∧
    (∀ (p : Proc) (d : String) (n : Nat),
      runCmd p d true = runCmd { p with duration := n } d true ∧
      (runCmd p d true).1 = (p.exitCode == 0)) := by
  refine ⟨?_, ?_, ?_⟩
  · intro p d h
    simp [runCmd, run_with_spinner, h]
  · intro p d sh h
    simp only [runCmd, Bool.false_eq_true, if_false, run_with_spinner] at h
    split at h
    · simp at h
    · split at h
      · simp at h
      · simp only [Prod.snd] at h
        have := (LogMsg.failed.injEq _ _ _ _).mp h
        split at this
        · exact absurd this.2 (by simp)
        · have hsh : sh = p.stderr.data.take 500 := by
            have h2 := this.2
            simpa using h2.symm
          rw [hsh]
          simp [List.length_take]
  · intro p d n
    constructor
    · rfl
    · cases h : p.exitCode == 0 with
      | true => simp [runCmd, run_interactive, h]
      | false => simp [runCmd, run_interactive, h]

/-- Witness for C7: a process exceeding the timeout is reported through the
`timedOut` message, and a failing process with a short stderr has its whole
stderr shown (length within the 500 bound). -/
theorem runCmd_timeout_and_truncation_witness :
    300 < (301 : Nat) ∧
    runCmd ⟨301, 0, "", ""⟩ "d" false = (false, LogMsg.timedOut "d") ∧
    ((runCmd ⟨1, 2, "", "err"⟩ "d" false).2 = LogMsg.failed "d" (some "err".data) ∧
      "err".data.length ≤ 500) := by
  refine ⟨by decide, runCmd_timeout_and_truncation.1 ⟨301, 0, "", ""⟩ "d" (by decide),
    by decide, runCmd_timeout_and_truncation.2.1 ⟨1, 2, "", "err"⟩ "d" "err".data (by decide)⟩

/-- C8: the registry lookups are total.  `get_projects_by_category` returns
the empty list for a category that is not a registry key (never an error),
and `get_project_by_name` returns `none` when no entry bears the requested
name. -/
theorem registry_lookups_total :
    (∀ category : String, category ∉ PROJECTS.map Prod.fst →
      get_projects_by_category category = []) ∧
    (∀ name : String, (∀ p ∈ get_all_projects, p.name ≠ name) →
      get_project_by_name name = none) := by
  constructor
  · intro category h
    show (PROJECTS.lookup category).getD [] = []
    rw [lookup_eq_none_of_not_mem PROJECTS category h]
    rfl
  · intro name h
    apply List.find?_eq_none.mpr
    intro p hp
    simpa using h p hp

/-- Witness for C8: the unknown category `database` yields `[]`, and the
unknown name `no-such-project` yields `none`. -/
theorem registry_lookups_total_witness :
    get_projects_by_category "database" = [] ∧
    get_project_by_name "no-such-project" = none := by
  exact ⟨registry_lookups_total.1 "database" (by decide),
    registry_lookups_total.2 "no-such-project" (by decide)⟩

/-- C9: for every shipped registry entry whose command starts with
`custom:`, the kind after the colon is a key of the handlers table of
`_handle_custom_install`, so the "Unknown custom installer" branch is
unreachable from registry entries; and for a configuration with an unknown
custom kind, `install` returns `false` (with no action performed) rather
than raising. -/
theorem custom_kinds_known :
    (∀ c ∈ get_all_projects, strStarts c.command "custom:" = true →
      customType c.command ∈ handlersKeys) ∧
    (∀ (runner : String → FsPath → Bool → Bool) (customResult : String → Bool)
      (config : ProjectConfig) (project_name : String) (parent_dir : FsPath)
      (skip_post_install : Bool),
      strStarts config.command "custom:" = true →
      customType config.command ∉ handlersKeys →
      install runner customResult config project_name parent_dir skip_post_install =
        (false, [])) := by
  constructor
  · decide
  · intro runner customResult config project_name parent_dir skip_post_install hc hk
    simp [install, hc, handle_custom_install, hk]

/-- Witness for C9: the `fastapi` registry entry's custom kind is known;
a made-up configuration with kind `bogus` makes `install` fail cleanly. -/
theorem custom_kinds_known_witness :
    customType "custom:fastapi" ∈ handlersKeys ∧
    install (fun _ _ _ => true) (fun _ => true)
      { name := "bogus-cfg", display_name := "Bogus", category := "api",
        command := "custom:bogus", requires := [],
        interactive := false, post_install := [], language := "python" }
      "x" [] false = (false, []) := by
  constructor
  · exact custom_kinds_known.1
      { name := "fastapi", display_name := "FastAPI", category := "api",
        command := "custom:fastapi", requires := ["python3"],
        interactive := false, language := "python" }
      (by decide) (by decide)
  · exact custom_kinds_known.2 _ _ _ _ _ _ (by decide) (by decide)

/-- C10: the shipped registry is internally consistent: entry names are
unique across all categories, each entry's `category` field equals the
registry key it is stored under, and consequently `get_project_by_name`
applied to any entry's name returns exactly that entry. -/
theorem registry_consistent :
    ((get_all_projects.map (fun p => p.name)).Nodup) ∧
    (∀ kv ∈ PROJECTS, ∀ p ∈ kv.2, p.category = kv.1) ∧
    (∀ p ∈ get_all_projects, get_project_by_name p.name = some p) := by
  refine ⟨by decide, by decide, ?_⟩
  intro p hp
  exact find_name_nodup get_all_projects (by decide) p hp

/-- Witness for C10: lookup of `react-vite` returns the `react-vite`
entry itself. -/
theorem registry_consistent_witness :
    get_project_by_name "react-vite" = some
      { name := "react-vite", display_name := "React (Vite)", category := "frontend",
        command := "npm create vite@latest {name}", requires := ["node", "npm"],
        interactive := true, language := "javascript" } := by
  exact registry_consistent.2.2
    { name := "react-vite", display_name := "React (Vite)", category := "frontend",
      command := "npm create vite@latest {name}", requires := ["node", "npm"],
      interactive := true, language := "javascript" }
    (by decide)

end ScaffoldCli
